import Mathlib

/-!
Verification of the Densa PHCU report-collection app (src/app.py) against its
design specification.  The app is a single Streamlit program: a data-entry form
appends one row per submission to a Google sheet; a dashboard filters rows by
institution and sums the numeric indicator columns; a CBHI performance page
groups the four insurance sub-indicators by institution, merges them with a
static plan table and computes a plan-vs-achieved percentage.

The embedding below models the sheet as a list of rows (each row a list of
cells), with the column layout the app itself writes in row_data: five metadata
cells (report date, reporter name, reporter phone, institution, timestamp)
followed by one cell per indicator in ALL_METRICS order.  Pandas float
arithmetic is modelled with rationals plus explicit infinity/NaN values, and
pd.to_numeric(errors = coerce).fillna(0) is modelled by toNumeric.
-/

/-- A spreadsheet cell: either a numeric value or raw text.  gspread returns
numeric cells as numbers and everything else as strings. -/
inductive Cell where
  | num (n : Int)
  | str (s : String)
deriving DecidableEq, Repr

/-- Value of a digit run, most significant first; none when a non-digit
appears. -/
def digitsValAux (acc : Nat) : List Char → Option Nat
  | [] => some acc
  | c :: cs => if c.isDigit then digitsValAux (acc * 10 + (c.toNat - 48)) cs else none

/-- Value of a non-empty all-digit character list. -/
def digitsVal (l : List Char) : Option Nat :=
  if l.isEmpty then none else digitsValAux 0 l

/-- Integer parse of a text cell (optional sign, then digits): the model of the
values pd.to_numeric can read back from this sheet, whose numeric cells are all
integers. -/
def parseIntStr (s : String) : Option Int :=
  match s.toList with
  | [] => none
  | c :: cs =>
    if c = '-' then (digitsVal cs).map (fun n => -(n : Int))
    else (digitsVal (c :: cs)).map (fun n => (n : Int))

/-- Model of pd.to_numeric(errors = coerce).fillna(0) on one cell: numbers pass
through, parseable text parses, anything unparseable coerces to 0. -/
def toNumeric : Cell → Int
  | .num n => n
  | .str s => (parseIntStr s).getD 0

/-- CBHI_PLAN values: the four static targets of one institution. -/
structure PlanRow where
  higherPaid : Int
  mediumPaid : Int
  free : Int
  newMembership : Int
deriving DecidableEq, Repr

/-- Static CBHI plan table from app.py (institution name to four targets). -/
def CBHI_PLAN : List (String × PlanRow) :=
  [ ("Densa HC /Merged Health Post", ⟨453, 551, 474, 251⟩),
    ("02 Densa Zuriya Health Post", ⟨147, 316, 155, 0⟩),
    ("03 Derew Health Post", ⟨456, 557, 478, 429⟩),
    ("04 Wejed Health Post", ⟨246, 346, 249, 0⟩),
    ("06 Gert Health Post", ⟨237, 298, 255, 22⟩),
    ("07 Lenguat Health Post", ⟨240, 328, 244, 0⟩),
    ("08 Alegeta Health Post", ⟨217, 252, 248, 22⟩),
    ("09 Sensa Health Post", ⟨173, 272, 179, 0⟩) ]

/-- INSTITUTIONS = list(CBHI_PLAN.keys()). -/
def INSTITUTIONS : List String := CBHI_PLAN.map Prod.fst

/-- METRICS_GROUPS from app.py: category name to ordered indicator list. -/
def METRICS_GROUPS : List (String × List String) :=
  [ ("Family Planning",
      [ "All forms of Family planning accepted", "Long term Family planning accepted",
        "IUCD provided", "Immediate Postpartum Family Planning Service Provided" ]),
    ("Maternal Health",
      [ "Pregnant women Screened", "ANC 1st contact service given",
        "ANC 4th contact service given", "ANC 8th contact service given",
        "Pregnant Mothers send to Health Center for skilled Birth", "Home Delivery happened",
        "Skilled Birth Attended", "Postnatal Care Service Provided",
        "Maternal conference conducted (1=Yes/0=No)", "number of Maternal conference participants" ]),
    ("Disease Prevention",
      [ "Household visited", "Improved Latrine at visited household",
        "Unimproved Latrine at visited household", "presumptive TB case screened",
        "presumptive TB cases sent to HC for investigation" ]),
    ("Child Health",
      [ "<5 children Treated for Pneumonia", "<5 children Treated for Diarrhea",
        "<5 children screened for acute malnutritional", "6–59 month children supplemented with Vitamin A",
        "24-29 month children Dewormed" ]),
    ("CBHI",
      [ "CBHI membership renewal (higher paid)", "CBHI membership renewal (medium paid)",
        "CBHI membership renewal (free)", "CBHI new membership",
        "CBHI money collected (ETB)", "CBHI money saved to bank (ETB)" ]) ]

/-- The flattened concatenation of the category indicator lists (the loop body
of the ALL_METRICS construction, before the final append). -/
def flattenedCategories : List String := (METRICS_GROUPS.map Prod.snd).flatten

/-- ALL_METRICS: the flattened category lists with the derived indicator
appended at the end, exactly as app.py builds it. -/
def ALL_METRICS : List String := flattenedCategories ++ ["Total CBHI (Auto)"]

/-- Short names for the four CBHI sub-indicator columns. -/
def hpCol : String := "CBHI membership renewal (higher paid)"

def mpCol : String := "CBHI membership renewal (medium paid)"

def frCol : String := "CBHI membership renewal (free)"

def nmCol : String := "CBHI new membership"

def totalCol : String := "Total CBHI (Auto)"

/-- Column position of metric m in a stored row: five metadata cells precede
the indicator columns, which follow ALL_METRICS order. -/
def colIndex (m : String) : Nat := 5 + ALL_METRICS.findIdx (fun x => x == m)

/-- The cell of row r in the column of metric m (empty text when absent). -/
def cellAt (r : List Cell) (m : String) : Cell := r.getD (colIndex m) (Cell.str "")

/-- The institution cell of a stored row (fourth metadata column). -/
def rowInstitution (r : List Cell) : Cell := r.getD 3 (Cell.str "")

/-- One form submission: the three header inputs, the selected institution, the
submission timestamp and the dict of entered indicator values. -/
structure Submission where
  reportDate : String
  reporterName : String
  reporterPhone : String
  institution : String
  timestamp : String
  dataValues : List (String × Int)
deriving DecidableEq, Repr

/-- Python dict get with default 0: first binding of the key wins. -/
def lookupD (dv : List (String × Int)) (k : String) : Int :=
  match dv.find? (fun p => p.1 == k) with
  | some p => p.2
  | none => 0

/-- The derived total computed at submission time: the sum of the four CBHI
membership sub-indicators of the same submission. -/
def totalCBHI (dv : List (String × Int)) : Int :=
  lookupD dv hpCol + lookupD dv mpCol + lookupD dv frCol + lookupD dv nmCol

/-- data_values after the assignment of the derived key (a dict update; the
form never produces that key, so a prepended binding has the same lookup
semantics). -/
def withTotalDV (s : Submission) : List (String × Int) :=
  (totalCol, totalCBHI s.dataValues) :: s.dataValues

/-- The five metadata cells of row_data. -/
def metaCells (s : Submission) : List Cell :=
  [Cell.str s.reportDate, Cell.str s.reporterName, Cell.str s.reporterPhone,
   Cell.str s.institution, Cell.str s.timestamp]

/-- row_data: metadata cells followed by data_values.get(m, 0) for m in
ALL_METRICS. -/
def rowData (s : Submission) : List Cell :=
  metaCells s ++ ALL_METRICS.map (fun m => Cell.num (lookupD (withTotalDV s) m))

/-- The durable store: the sheet body as a list of appended rows. -/
abbrev Store := List (List Cell)

/-- The data-entry page: the form (and hence its submit handler) is reachable
only when both reporter name and phone are non-empty (Python truthiness of the
two strings); an accepted submission appends exactly one row. -/
def submitReport (store : Store) (s : Submission) : Store :=
  if s.reporterName ≠ "" ∧ s.reporterPhone ≠ "" then store ++ [rowData s]
  else store

/-- Whether pattern pat occurs at the head of l. -/
def charsHasPre : List Char → List Char → Bool
  | [], _ => true
  | _ :: _, [] => false
  | p :: ps, c :: cs => p == c && charsHasPre ps cs

/-- Whether pattern pat occurs contiguously anywhere in l. -/
def charsHasSub (pat : List Char) : List Char → Bool
  | [] => charsHasPre pat []
  | c :: cs => charsHasPre pat (c :: cs) || charsHasSub pat cs

/-- Python substring containment, pat in s. -/
def strContainsSub (s pat : String) : Bool := charsHasSub pat.toList s.toList

/-- sum_metrics: every metric whose name does not contain the substring money
(the money fields are excluded from the general summation). -/
def sum_metrics : List String := ALL_METRICS.filter (fun m => !(strContainsSub m "money"))

/-- Dashboard institution filter: with a non-empty multiselect keep the rows
whose Institution cell is a member; with an empty one keep df unchanged. -/
def filterInstitutions (rows : Store) (sel : List String) : Store :=
  if sel.isEmpty then rows
  else rows.filter (fun r => (sel.map Cell.str).contains (rowInstitution r))

/-- One summed column of the dashboard totals: the rows projected to column m,
coerced by toNumeric, then summed (an empty column sums to 0). -/
def columnTotal (rows : Store) (m : String) : Int :=
  (rows.map (fun r => toNumeric (cellAt r m))).sum

/-- The TOTAL SUM table of the dashboard: one (column, total) pair per metric
of sum_metrics. -/
def totalRow (rows : Store) : List (String × Int) :=
  sum_metrics.map (fun m => (m, columnTotal rows m))

/-- A pandas float value: a finite rational, one of the two infinities, or
NaN.  Finite arithmetic on the values of this app is exact in rationals. -/
inductive FVal where
  | num (q : ℚ)
  | inf
  | ninf
  | nan
deriving DecidableEq, Repr

/-- Float division as pandas performs it: division by zero yields NaN for a
zero numerator and a signed infinity otherwise. -/
def fdiv (a b : ℚ) : FVal :=
  if b = 0 then if a = 0 then .nan else if a > 0 then .inf else .ninf
  else .num (a / b)

/-- Multiplication of a float value by 100. -/
def fmul100 : FVal → FVal
  | .num q => .num (q * 100)
  | v => v

/-- Round to the nearest integer, ties to even (the rounding of Python float
formatting on exactly representable ties). -/
def roundHalfEven (q : ℚ) : Int :=
  let f : Int := q.floor
  let r : ℚ := q - (f : ℚ)
  if r < 1/2 then f
  else if r > 1/2 then f + 1
  else if f % 2 = 0 then f else f + 1

/-- Insert a thousands separator every three digits, input least significant
digit first. -/
def groupChars : List Char → List Char
  | a :: b :: c :: d :: rest => a :: b :: c :: ',' :: groupChars (d :: rest)
  | l => l

/-- Decimal digits of n, least significant first. -/
def natDigitsRev (n : Nat) : List Char :=
  (Nat.toDigits 10 n).reverse

/-- Format q as Python f-string ,.1f does: one decimal digit, thousands
separators in the integer part. -/
def fmtRat1 (q : ℚ) : String :=
  let n : Int := roundHalfEven (q * 10)
  let sign : String := if n < 0 then "-" else ""
  let m : Nat := n.natAbs
  let ip : List Char := (groupChars (natDigitsRev (m / 10))).reverse
  sign ++ String.mk ip ++ "." ++ String.mk (natDigitsRev (m % 10))

/-- The Performance % cell: the float value formatted with ,.1f and a percent
sign appended (infinities and NaN render as inf and nan). -/
def fmtPct : FVal → String
  | .nan => "nan%"
  | .inf => "inf%"
  | .ninf => "-inf%"
  | .num q => fmtRat1 q ++ "%"

/-- The groupby keys: the distinct Institution cells of the loaded rows. -/
def instKeys (rows : Store) : List Cell :=
  (rows.map rowInstitution).dedup

/-- Sum of column m over the group of rows whose Institution cell is k (the
columns were coerced by to_numeric before the groupby). -/
def groupSum (rows : Store) (k : Cell) (m : String) : Int :=
  ((rows.filter (fun r => rowInstitution r == k)).map (fun r => toNumeric (cellAt r m))).sum

/-- One row of df_aggregated: the groupby key and the four summed achieved
columns. -/
structure AggRow where
  key : Cell
  hp : Int
  mp : Int
  fr : Int
  nm : Int
deriving DecidableEq, Repr

/-- df_aggregated: one row per distinct institution among the records, with
the per-group sums of the four CBHI sub-indicator columns. -/
def dfAggregated (rows : Store) : List AggRow :=
  (instKeys rows).map (fun k =>
    ⟨k, groupSum rows k hpCol, groupSum rows k mpCol, groupSum rows k frCol, groupSum rows k nmCol⟩)

/-- The left-merge lookup with fillna(0): the aggregated row of the plan
institution, or all-zero achieved values when it has no records. -/
def aggLookup (agg : List AggRow) (inst : String) : AggRow :=
  match agg.find? (fun a => a.key == Cell.str inst) with
  | some a => a
  | none => ⟨Cell.str inst, 0, 0, 0, 0⟩

/-- One row of df_final on the CBHI performance page. -/
structure ReportRow where
  institution : String
  planHigherPaid : Int
  planMediumPaid : Int
  planFree : Int
  planNewMembership : Int
  achievedHigherPaid : Int
  achievedMediumPaid : Int
  achievedFree : Int
  achievedNewMembership : Int
  totalPlan : Int
  totalAchieved : Int
  performance : String
deriving DecidableEq, Repr

/-- The row of df_final for one plan institution: plan columns from the static
table, achieved columns from the left merge with df_aggregated, the two totals
and the formatted Performance % value. -/
def mkReportRow (rows : Store) (inst : String) (pr : PlanRow) : ReportRow :=
  let a := aggLookup (dfAggregated rows) inst
  let tp := pr.higherPaid + pr.mediumPaid + pr.free + pr.newMembership
  let ta := a.hp + a.mp + a.fr + a.nm
  ⟨inst, pr.higherPaid, pr.mediumPaid, pr.free, pr.newMembership,
   a.hp, a.mp, a.fr, a.nm, tp, ta, fmtPct (fmul100 (fdiv (ta : ℚ) (tp : ℚ)))⟩

/-- df_final: one report row per entry of the static plan table, in plan
order (the left merge keeps exactly the left keys; groupby keys are distinct,
so no plan row is duplicated). -/
def cbhiReport (rows : Store) : List ReportRow :=
  CBHI_PLAN.map (fun p => mkReportRow rows p.1 p.2)

/-- The pages of the app as operations on the durable store: data entry may
append, the dashboard and the performance report only read. -/
inductive Op where
  | dataEntry (s : Submission)
  | dashboard (sel : List String)
  | performanceView

/-- Effect of one page interaction on the store. -/
def applyOp (store : Store) : Op → Store
  | .dataEntry s => submitReport store s
  | .dashboard _ => store
  | .performanceView => store

/-- Effect of a sequence of page interactions on the store. -/
def runOps (store : Store) (ops : List Op) : Store :=
  ops.foldl applyOp store

/-- The concrete example submission of the spec: one report for Derew with
higher-paid 5, medium-paid 3, free 2, new-membership 1, all other indicators
at their zero defaults. -/
def derewSub : Submission :=
  ⟨ "2025-01-01", "Reporter", "0911", "03 Derew Health Post", "ts",
    [(hpCol, 5), (mpCol, 3), (frCol, 2), (nmCol, 1)]⟩

theorem lookupD_cons_self (k : String) (v : Int) (dv : List (String × Int)) :
    lookupD ((k, v) :: dv) k = v := by
  simp [lookupD, List.find?]

theorem lookupD_cons_ne (k' k : String) (v : Int) (dv : List (String × Int))
    (h : k' ≠ k) : lookupD ((k', v) :: dv) k = lookupD dv k := by
  have hb : (k' == k) = false := beq_eq_false_iff_ne.mpr h
  simp [lookupD, List.find?, hb]

theorem lookupD_withTotal_total (s : Submission) :
    lookupD (withTotalDV s) totalCol = totalCBHI s.dataValues := by
  simpa [withTotalDV] using lookupD_cons_self totalCol (totalCBHI s.dataValues) s.dataValues

theorem lookupD_withTotal_ne (s : Submission) (m : String) (h : m ≠ totalCol) :
    lookupD (withTotalDV s) m = lookupD s.dataValues m := by
  simpa [withTotalDV] using
    lookupD_cons_ne totalCol m (totalCBHI s.dataValues) s.dataValues (fun he => h he.symm)

/-- Reading column m of a freshly built row gives the dict value of m, for any
m whose findIdx position i in ALL_METRICS holds m itself. -/
theorem cellAt_rowData (s : Submission) (m : String) (i : Nat)
    (h1 : ALL_METRICS.findIdx (fun x => x == m) = i)
    (h2 : ALL_METRICS[i]? = some m) :
    cellAt (rowData s) m = Cell.num (lookupD (withTotalDV s) m) := by
  have hlen : (metaCells s).length = 5 := by simp [metaCells]
  have h5 : (metaCells s).length ≤ 5 + i := by omega
  simp only [cellAt, colIndex, h1, rowData, List.getD_eq_getElem?_getD,
    List.getElem?_append_right h5, hlen, List.getElem?_map]
  have : 5 + i - 5 = i := by omega
  rw [this, h2]
  rfl

theorem cellAt_rowData_hp (s : Submission) :
    cellAt (rowData s) hpCol = Cell.num (lookupD s.dataValues hpCol) := by
  rw [cellAt_rowData s hpCol 24 (by rfl) (by rfl), lookupD_withTotal_ne s hpCol (by decide)]

theorem cellAt_rowData_mp (s : Submission) :
    cellAt (rowData s) mpCol = Cell.num (lookupD s.dataValues mpCol) := by
  rw [cellAt_rowData s mpCol 25 (by rfl) (by rfl), lookupD_withTotal_ne s mpCol (by decide)]

theorem cellAt_rowData_fr (s : Submission) :
    cellAt (rowData s) frCol = Cell.num (lookupD s.dataValues frCol) := by
  rw [cellAt_rowData s frCol 26 (by rfl) (by rfl), lookupD_withTotal_ne s frCol (by decide)]

theorem cellAt_rowData_nm (s : Submission) :
    cellAt (rowData s) nmCol = Cell.num (lookupD s.dataValues nmCol) := by
  rw [cellAt_rowData s nmCol 27 (by rfl) (by rfl), lookupD_withTotal_ne s nmCol (by decide)]

theorem cellAt_rowData_total (s : Submission) :
    cellAt (rowData s) totalCol = Cell.num (totalCBHI s.dataValues) := by
  rw [cellAt_rowData s totalCol 30 (by rfl) (by rfl), lookupD_withTotal_total]

/-- C1: an accepted submission (non-empty reporter name and phone) appends
exactly one new row to the store; the derived Total CBHI (Auto) cell of that
row equals the sum of the four CBHI sub-indicator cells of the same row; and
resubmitting the identical submission appends a second identical row. -/
theorem c1_submit_appends_derived_total (store : Store) (s : Submission)
    (hn : s.reporterName ≠ "") (hp : s.reporterPhone ≠ "") :
    submitReport store s = store ++ [rowData s] ∧
    cellAt (rowData s) totalCol =
      Cell.num (toNumeric (cellAt (rowData s) hpCol) + toNumeric (cellAt (rowData s) mpCol) +
        toNumeric (cellAt (rowData s) frCol) + toNumeric (cellAt (rowData s) nmCol)) ∧
    submitReport (submitReport store s) s = store ++ [rowData s, rowData s] := by
  refine ⟨by simp [submitReport, hn, hp], ?_, by simp [submitReport, hn, hp]⟩
  rw [cellAt_rowData_total, cellAt_rowData_hp, cellAt_rowData_mp, cellAt_rowData_fr,
    cellAt_rowData_nm]
  simp [toNumeric, totalCBHI]

/-- Witness for C1 at the concrete Derew submission over the empty store. -/
theorem c1_witness :
    submitReport [] derewSub = [] ++ [rowData derewSub] ∧
    cellAt (rowData derewSub) totalCol =
      Cell.num (toNumeric (cellAt (rowData derewSub) hpCol) + toNumeric (cellAt (rowData derewSub) mpCol) +
        toNumeric (cellAt (rowData derewSub) frCol) + toNumeric (cellAt (rowData derewSub) nmCol)) ∧
    submitReport (submitReport [] derewSub) derewSub = [] ++ [rowData derewSub, rowData derewSub] :=
  c1_submit_appends_derived_total [] derewSub (by decide) (by decide)

/-- C7: with an empty reporter name or phone the form never submits, so the
store is unchanged, whatever the other fields hold. -/
theorem c7_empty_reporter_rejected (store : Store) (s : Submission)
    (h : s.reporterName = "" ∨ s.reporterPhone = "") :
    submitReport store s = store := by
  rcases h with h | h <;> simp [submitReport, h]

/-- Witness for C7: a submission with an empty name leaves a one-row store
unchanged. -/
theorem c7_witness :
    submitReport [rowData derewSub] ⟨ "2025-01-02", "", "0911", "03 Derew Health Post", "ts", []⟩ =
      [rowData derewSub] :=
  c7_empty_reporter_rejected [rowData derewSub] _ (Or.inl rfl)

/-- C4: the institution filter: an empty selection leaves the loaded rows
unchanged; a non-empty selection keeps exactly the in-order sublist of rows
whose Institution cell is a member of the selection. -/
theorem c4_filter_membership (rows : Store) (sel : List String) :
    (sel = [] → filterInstitutions rows sel = rows) ∧
    (sel ≠ [] → filterInstitutions rows sel =
      rows.filter (fun r => (sel.map Cell.str).contains (rowInstitution r))) ∧
    List.Sublist (filterInstitutions rows sel) rows ∧
    (sel ≠ [] → ∀ r, r ∈ filterInstitutions rows sel ↔
      r ∈ rows ∧ rowInstitution r ∈ sel.map Cell.str) := by
  refine ⟨fun h => by simp [filterInstitutions, h], fun h => ?_, ?_, fun h r => ?_⟩
  · simp [filterInstitutions, List.isEmpty_iff, h]
  · by_cases h : sel.isEmpty
    · simp [filterInstitutions, h]
    · simp only [filterInstitutions, h, if_false]
      exact List.filter_sublist rows
  · simp only [filterInstitutions, List.isEmpty_iff, h, if_false, List.mem_filter,
      List.contains_iff_exists_mem_beq]
    constructor
    · rintro ⟨hr, hex⟩
      obtain ⟨c, hc, hbeq⟩ := hex
      exact ⟨hr, by rwa [beq_iff_eq.mp hbeq]⟩
    · rintro ⟨hr, hmem⟩
      exact ⟨hr, ⟨rowInstitution r, hmem, beq_iff_eq.mpr rfl⟩⟩

/-- Witness for C4 at a two-row store and the singleton Derew selection. -/
theorem c4_witness :
    filterInstitutions [rowData derewSub] ["03 Derew Health Post"] =
      List.filter (fun r => (["03 Derew Health Post"].map Cell.str).contains (rowInstitution r))
        [rowData derewSub] :=
  (c4_filter_membership [rowData derewSub] ["03 Derew Health Post"]).2.1 (by decide)

theorem applyOp_extends (store : Store) (op : Op) :
    ∃ d, applyOp store op = store ++ d := by
  cases op with
  | dataEntry s =>
    by_cases h : s.reporterName ≠ "" ∧ s.reporterPhone ≠ ""
    · exact ⟨[rowData s], by simp [applyOp, submitReport, h]⟩
    · exact ⟨[], by simp [applyOp, submitReport, h]⟩
  | dashboard sel => exact ⟨[], by simp [applyOp]⟩
  | performanceView => exact ⟨[], by simp [applyOp]⟩

theorem runOps_extends (ops : List Op) :
    ∀ store, ∃ tail, runOps store ops = store ++ tail := by
  induction ops with
  | nil => exact fun store => ⟨[], by simp [runOps]⟩
  | cons op ops ih =>
    intro store
    obtain ⟨d, hd⟩ := applyOp_extends store op
    obtain ⟨t, ht⟩ := ih (applyOp store op)
    refine ⟨d ++ t, ?_⟩
    have hstep : runOps store (op :: ops) = runOps (applyOp store op) ops := rfl
    rw [hstep, ht, hd, List.append_assoc]

theorem lookupD_map_self (f : String → Int) (l : List String) (m : String) (h : m ∈ l) :
    lookupD (l.map (fun k => (k, f k))) m = f m := by
  induction l with
  | nil => cases h
  | cons k ks ih =>
    by_cases hk : k = m
    · subst hk
      simpa [List.map] using lookupD_cons_self k (f k) (ks.map (fun k => (k, f k)))
    · have hm : m ∈ ks := by
        cases List.mem_cons.mp h with
        | inl he => exact absurd he.symm hk
        | inr hm => exact hm
      rw [List.map_cons, lookupD_cons_ne k m (f k) _ hk, ih hm]

/-- Coercing every cell of a row to its numeric value does not change what
toNumeric reads from any column. -/
theorem toNumeric_cellAt_sanitize (r : List Cell) (m : String) :
    toNumeric (cellAt (r.map (fun c => Cell.num (toNumeric c))) m) = toNumeric (cellAt r m) := by
  simp only [cellAt, List.getD_eq_getElem?_getD, List.getElem?_map]
  cases r[colIndex m]? with
  | none => rfl
  | some c => rfl

/-- Column-wise map over two stores that agree pointwise under f and g. -/
theorem store_map_agree (f g : List Cell → Int) :
    ∀ l l' : Store, l.length = l'.length →
      (∀ j, j < l.length → f (l.getD j []) = g (l'.getD j [])) →
      l.map f = l'.map g := by
  intro l
  induction l with
  | nil =>
    intro l' hlen _
    cases l' with
    | nil => rfl
    | cons b bs => simp at hlen
  | cons a as ih =>
    intro l' hlen hag
    cases l' with
    | nil => simp at hlen
    | cons b bs =>
      have h0 := hag 0 (by simp)
      simp only [List.getD_cons_zero] at h0
      simp only [List.map_cons, List.cons.injEq]
      refine ⟨h0, ih bs (by simpa using hlen) ?_⟩
      intro j hj
      have := hag (j + 1) (by simpa using Nat.succ_lt_succ hj)
      simpa [List.getD_cons_succ] using this

/-- C3: the dashboard summation: over an empty record set every summed column
totals zero; for any record set the table entry of a summed column is the
arithmetic sum of that column after toNumeric coercion; coercing every cell to
its numeric value first changes nothing; and an unparseable text cell coerces
to zero (the aggregation is a total function, so one bad cell never fails
it). -/
theorem c3_sum_semantics (rows : Store) :
    (∀ p ∈ totalRow [], p.2 = 0) ∧
    (∀ m ∈ sum_metrics, lookupD (totalRow rows) m = columnTotal rows m) ∧
    totalRow rows = totalRow (rows.map (fun r => r.map (fun c => Cell.num (toNumeric c)))) ∧
    (∀ s, parseIntStr s = none → toNumeric (Cell.str s) = 0) := by
  refine ⟨?_, ?_, ?_, ?_⟩
  · intro p hp
    simp only [totalRow, columnTotal, List.map_nil, List.sum_nil, List.mem_map] at hp
    obtain ⟨m, _, rfl⟩ := hp
    rfl
  · intro m hm
    exact lookupD_map_self (columnTotal rows) sum_metrics m hm
  · apply List.map_congr_left
    intro m _
    have : columnTotal rows m = columnTotal (rows.map (fun r => r.map (fun c => Cell.num (toNumeric c)))) m := by
      simp only [columnTotal, List.map_map]
      apply congrArg List.sum
      apply List.map_congr_left
      intro r _
      exact (toNumeric_cellAt_sanitize r m).symm
    rw [this]
  · intro s h
    simp [toNumeric, h]

/-- Witness for C3: the higher-paid column entry of the totals table over a
one-row store is the coerced column sum. -/
theorem c3_witness :
    lookupD (totalRow [rowData derewSub]) hpCol = columnTotal [rowData derewSub] hpCol :=
  (c3_sum_semantics [rowData derewSub]).2.1 hpCol (by decide)

/-- The Derew submission with a money amount entered as well: its stored row
differs from the plain Derew row only in the money column. -/
def derewMoneySub : Submission :=
  ⟨ "2025-01-01", "Reporter", "0911", "03 Derew Health Post", "ts",
    [(hpCol, 5), (mpCol, 3), (frCol, 2), (nmCol, 1), ("CBHI money collected (ETB)", 999)]⟩

/-- C6: the summed columns of the general summary are exactly the metrics
whose names do not contain the substring money; the totals table carries one
entry per such metric; the two money indicators are excluded; and two stores
that agree on every summed column row-by-row produce identical totals, so no
money column contributes to any total. -/
theorem c6_money_excluded (rows rows' : Store)
    (hlen : rows.length = rows'.length)
    (hagree : ∀ j, j < rows.length → ∀ m ∈ sum_metrics,
      cellAt (rows.getD j []) m = cellAt (rows'.getD j []) m) :
    totalRow rows = totalRow rows' ∧
    (∀ m, m ∈ sum_metrics ↔ (m ∈ ALL_METRICS ∧ strContainsSub m "money" = false)) ∧
    (totalRow rows).map Prod.fst = sum_metrics ∧
    strContainsSub "CBHI money collected (ETB)" "money" = true ∧
    strContainsSub "CBHI money saved to bank (ETB)" "money" = true ∧
    "CBHI money collected (ETB)" ∉ sum_metrics ∧
    "CBHI money saved to bank (ETB)" ∉ sum_metrics := by
  refine ⟨?_, ?_, ?_, by decide, by decide, by decide, by decide⟩
  · apply List.map_congr_left
    intro m hm
    have : columnTotal rows m = columnTotal rows' m := by
      apply congrArg List.sum
      apply store_map_agree _ _ rows rows' hlen
      intro j hj
      exact congrArg toNumeric (hagree j hj m hm)
    rw [this]
  · intro m
    simp [sum_metrics, List.mem_filter, Bool.not_eq_true']
  · simp [totalRow, List.map_map, Function.comp_def]

/-- Witness for C6: entering a money amount changes the stored row but not the
totals table. -/
theorem c6_witness :
    totalRow [rowData derewSub] = totalRow [rowData derewMoneySub] :=
  (c6_money_excluded [rowData derewSub] [rowData derewMoneySub] (by decide) (by decide)).1

/-- C9: the store only grows by appends: after any sequence of page
interactions the previous store is an unchanged prefix of the new one, so
every previously appended record is still present at its index. -/
theorem c9_append_only (store : Store) (ops : List Op) :
    ∃ tail, runOps store ops = store ++ tail ∧
      ∀ i, i < store.length → (runOps store ops)[i]? = store[i]? := by
  obtain ⟨tail, h⟩ := runOps_extends ops store
  exact ⟨tail, h, fun i hi => by rw [h]; exact List.getElem?_append_left hi⟩

/-- Witness for C9 on a one-row store and a three-interaction session. -/
theorem c9_witness :
    ∃ tail, runOps [rowData derewSub] [Op.dataEntry derewSub, Op.dashboard [], Op.performanceView] =
        [rowData derewSub] ++ tail ∧
      ∀ i, i < ([rowData derewSub] : Store).length →
        (runOps [rowData derewSub] [Op.dataEntry derewSub, Op.dashboard [], Op.performanceView])[i]? =
          ([rowData derewSub] : Store)[i]? :=
  c9_append_only [rowData derewSub] [Op.dataEntry derewSub, Op.dashboard [], Op.performanceView]

/-- The left-merge-with-fillna lookup always produces the per-institution
group sums of the four coerced CBHI columns: a plan institution present among
the records gets its groupby row, and an absent one gets zeros, which agree
with the empty group sums. -/
theorem aggLookup_eq (rows : Store) (inst : String) :
    aggLookup (dfAggregated rows) inst =
      ⟨Cell.str inst, groupSum rows (Cell.str inst) hpCol, groupSum rows (Cell.str inst) mpCol,
       groupSum rows (Cell.str inst) frCol, groupSum rows (Cell.str inst) nmCol⟩ := by
  unfold aggLookup
  cases hf : (dfAggregated rows).find? (fun a => a.key == Cell.str inst) with
  | some a =>
    have hp := List.find?_some hf
    have hm := List.mem_of_find?_eq_some hf
    have hkey : a.key = Cell.str inst := beq_iff_eq.mp hp
    simp only [dfAggregated, List.mem_map] at hm
    obtain ⟨k, _, ha⟩ := hm
    subst ha
    have hk : k = Cell.str inst := hkey
    subst hk
    rfl
  | none =>
    have hnone := List.find?_eq_none.mp hf
    have hkeys : Cell.str inst ∉ instKeys rows := by
      intro hk
      have hmem : (⟨Cell.str inst, groupSum rows (Cell.str inst) hpCol,
          groupSum rows (Cell.str inst) mpCol, groupSum rows (Cell.str inst) frCol,
          groupSum rows (Cell.str inst) nmCol⟩ : AggRow) ∈ dfAggregated rows := by
        simp only [dfAggregated, List.mem_map]
        exact ⟨Cell.str inst, hk, rfl⟩
      exact hnone _ hmem (by simp)
    have hno : ∀ r ∈ rows, ¬(rowInstitution r == Cell.str inst) = true := by
      intro r hr hbeq
      apply hkeys
      simp only [instKeys, List.mem_dedup, List.mem_map]
      exact ⟨r, hr, beq_iff_eq.mp hbeq⟩
    have hfilter : rows.filter (fun r => rowInstitution r == Cell.str inst) = [] :=
      List.filter_eq_nil_iff.mpr hno
    simp [groupSum, hfilter]

/-- C2 evidence: the Performance % computation has no zero-plan guard: on a
synthetic institution whose four plan targets are all zero, a non-zero
achievement renders as inf% (and a zero one as nan%), never as the N/A
sentinel the specification requires. -/
theorem c2_zero_plan_renders_inf :
    (mkReportRow [rowData derewSub] "03 Derew Health Post" ⟨0, 0, 0, 0⟩).performance = "inf%" ∧
    (mkReportRow [] "03 Derew Health Post" ⟨0, 0, 0, 0⟩).performance = "nan%" ∧
    (mkReportRow [rowData derewSub] "03 Derew Health Post" ⟨0, 0, 0, 0⟩).performance ≠ "N/A" ∧
    fdiv 11 0 = FVal.inf := by
  refine ⟨by rfl, by rfl, by decide, by rfl⟩

/-- C5: every row of the CBHI performance report pairs one static plan entry
with the per-institution sums of the four coerced sub-indicator columns
grouped by institution, carries the two totals, and formats achieved divided
by plan times 100 to one decimal place; concretely, the single Derew
submission with higher-paid 5 yields Achieved Higher Paid 5 against Plan
Higher Paid 456. -/
theorem c5_performance_rows (rows : Store) (hne : rows ≠ []) (i : Nat)
    (hi : i < CBHI_PLAN.length) :
    (∃ pr row, CBHI_PLAN[i]? = some (row.institution, pr) ∧
      (cbhiReport rows)[i]? = some row ∧
      row.planHigherPaid = pr.higherPaid ∧ row.planMediumPaid = pr.mediumPaid ∧
      row.planFree = pr.free ∧ row.planNewMembership = pr.newMembership ∧
      row.achievedHigherPaid = groupSum rows (Cell.str row.institution) hpCol ∧
      row.achievedMediumPaid = groupSum rows (Cell.str row.institution) mpCol ∧
      row.achievedFree = groupSum rows (Cell.str row.institution) frCol ∧
      row.achievedNewMembership = groupSum rows (Cell.str row.institution) nmCol ∧
      row.totalPlan = pr.higherPaid + pr.mediumPaid + pr.free + pr.newMembership ∧
      row.totalAchieved = row.achievedHigherPaid + row.achievedMediumPaid +
        row.achievedFree + row.achievedNewMembership ∧
      row.performance =
        fmtPct (fmul100 (fdiv (row.totalAchieved : ℚ) (row.totalPlan : ℚ)))) ∧
    ((cbhiReport [rowData derewSub]).find? (fun r => r.institution == "03 Derew Health Post")).map
      (fun r => (r.achievedHigherPaid, r.planHigherPaid)) = some (5, 456) := by
  constructor
  · have hplan : CBHI_PLAN[i]? = some (CBHI_PLAN.get ⟨i, hi⟩) := List.getElem?_eq_getElem hi
    refine ⟨(CBHI_PLAN.get ⟨i, hi⟩).2, mkReportRow rows (CBHI_PLAN.get ⟨i, hi⟩).1 (CBHI_PLAN.get ⟨i, hi⟩).2,
      ?_, ?_, ?_, ?_, ?_, ?_, ?_, ?_, ?_, ?_, ?_, ?_, ?_⟩
    · simp [mkReportRow, hplan]
    · simp [cbhiReport, List.getElem?_map, hplan]
    · simp [mkReportRow]
    · simp [mkReportRow]
    · simp [mkReportRow]
    · simp [mkReportRow]
    · simp [mkReportRow, aggLookup_eq]
    · simp [mkReportRow, aggLookup_eq]
    · simp [mkReportRow, aggLookup_eq]
    · simp [mkReportRow, aggLookup_eq]
    · simp [mkReportRow]
    · simp [mkReportRow, aggLookup_eq]
    · simp [mkReportRow, aggLookup_eq]
  · rfl

/-- Witness for C5 at the one-row Derew store and the Derew plan index. -/
theorem c5_witness :
    (∃ pr row, CBHI_PLAN[2]? = some (row.institution, pr) ∧
      (cbhiReport [rowData derewSub])[2]? = some row ∧
      row.planHigherPaid = pr.higherPaid ∧ row.planMediumPaid = pr.mediumPaid ∧
      row.planFree = pr.free ∧ row.planNewMembership = pr.newMembership ∧
      row.achievedHigherPaid = groupSum [rowData derewSub] (Cell.str row.institution) hpCol ∧
      row.achievedMediumPaid = groupSum [rowData derewSub] (Cell.str row.institution) mpCol ∧
      row.achievedFree = groupSum [rowData derewSub] (Cell.str row.institution) frCol ∧
      row.achievedNewMembership = groupSum [rowData derewSub] (Cell.str row.institution) nmCol ∧
      row.totalPlan = pr.higherPaid + pr.mediumPaid + pr.free + pr.newMembership ∧
      row.totalAchieved = row.achievedHigherPaid + row.achievedMediumPaid +
        row.achievedFree + row.achievedNewMembership ∧
      row.performance =
        fmtPct (fmul100 (fdiv (row.totalAchieved : ℚ) (row.totalPlan : ℚ)))) ∧
    ((cbhiReport [rowData derewSub]).find? (fun r => r.institution == "03 Derew Health Post")).map
      (fun r => (r.achievedHigherPaid, r.planHigherPaid)) = some (5, 456) :=
  c5_performance_rows [rowData derewSub] (List.cons_ne_nil _ _) 2 (by decide)

/-- C10: the rendered performance report always has exactly one row per
static-plan institution, in plan order, whatever institutions appear among
the records; a plan institution with no records shows four zero achieved
values. -/
theorem c10_one_row_per_plan_institution (rows : Store) (hne : rows ≠ []) :
    (cbhiReport rows).map (fun r => r.institution) = INSTITUTIONS ∧
    (cbhiReport rows).length = 8 ∧
    ∀ row ∈ cbhiReport rows, Cell.str row.institution ∉ rows.map rowInstitution →
      row.achievedHigherPaid = 0 ∧ row.achievedMediumPaid = 0 ∧
      row.achievedFree = 0 ∧ row.achievedNewMembership = 0 := by
  refine ⟨?_, ?_, ?_⟩
  · simp [cbhiReport, INSTITUTIONS, List.map_map, Function.comp_def, mkReportRow]
  · simp only [cbhiReport, List.length_map]
    rfl
  · intro row hrow hnot
    simp only [cbhiReport, List.mem_map] at hrow
    obtain ⟨p, _, hp⟩ := hrow
    have hinst : row.institution = p.1 := by rw [← hp]; rfl
    have hfilter : rows.filter (fun r => rowInstitution r == Cell.str p.1) = [] := by
      apply List.filter_eq_nil_iff.mpr
      intro r hr hbeq
      apply hnot
      rw [hinst]
      simp only [List.mem_map]
      exact ⟨r, hr, beq_iff_eq.mp hbeq⟩
    rw [← hp]
    simp only [mkReportRow, aggLookup_eq]
    simp [groupSum, hfilter]

/-- Witness for C10 at the one-row Derew store. -/
theorem c10_witness :
    (cbhiReport [rowData derewSub]).map (fun r => r.institution) = INSTITUTIONS ∧
    (cbhiReport [rowData derewSub]).length = 8 ∧
    ∀ row ∈ cbhiReport [rowData derewSub],
      Cell.str row.institution ∉ [rowData derewSub].map rowInstitution →
      row.achievedHigherPaid = 0 ∧ row.achievedMediumPaid = 0 ∧
      row.achievedFree = 0 ∧ row.achievedNewMembership = 0 :=
  c10_one_row_per_plan_institution [rowData derewSub] (List.cons_ne_nil _ _)

/-- The indicator order of the entry form: the category lists in order, with
the derived indicator skipped inside each category (it occurs in none, so the
skip removes nothing). -/
def formFieldOrder : List String :=
  (METRICS_GROUPS.map (fun g => g.2.filter (fun ind => !(ind == totalCol)))).flatten

/-- C8 counterexample: a stored row is not the five metadata cells followed by
one value per indicator of the bare concatenation of the category lists: the
row carries one more trailing cell, the derived Total CBHI (Auto) column. -/
theorem c8_counterexample :
    rowData derewSub ≠
      metaCells derewSub ++
        flattenedCategories.map (fun m => Cell.num (lookupD (withTotalDV derewSub) m)) := by
  decide

/-- C8 as amended: every appended row is the five metadata cells followed by
one value per indicator in ALL_METRICS order, where ALL_METRICS is the
concatenation of the category lists with the derived Total CBHI (Auto)
indicator appended at the end; the bare concatenation is the form field
order. -/
theorem c8_row_layout (s : Submission) :
    rowData s = metaCells s ++ ALL_METRICS.map (fun m => Cell.num (lookupD (withTotalDV s) m)) ∧
    ALL_METRICS = flattenedCategories ++ [totalCol] ∧
    (metaCells s).length = 5 ∧
    formFieldOrder = flattenedCategories :=
  ⟨rfl, rfl, by simp [metaCells], by decide⟩
